import Mathlib

set_option maxRecDepth 16384

/-!
Shallow embedding of the alert evaluator of
src/consumers/kafka_consumer_kabore.py: _try_parse_json (lines 54-62) and
process_message (lines 65-100).

Modelling conventions:
* A decoded JSON value is a JValue.  Python bool is a subclass of int, so
  isinstance(x, int) accepts booleans; the trigger functions below mirror
  that.
* A JSON real number is carried as the exact rational value of the IEEE-754
  double that json.loads produces, together with the string that Python
  str() prints for it (the shortest round-tripping decimal).
* json.loads itself is standard-library code, external to the repository;
  it is abstracted as an oracle of type String -> Option JFields that
  returns the decoded object, or none on json.JSONDecodeError.  A text
  that, stripped, starts with a left brace and decodes successfully is
  necessarily a JSON object, which the oracle type reflects.
* CPython float(n) on an int n raises OverflowError when |n| rounds beyond
  the largest finite double, that is when |n| >= 2^1024 - 2^970 (ovfBound);
  gaitCheck returns none in that case and process_message propagates the
  exception after the hr alert (if any) was already printed.  This is the
  only exception the evaluator itself can raise: all other operations it
  performs (dict.get, isinstance, int comparison, string formatting of the
  reached values, substring search) are total.  Python ints are arbitrary
  precision, modelled by Int; configurable interpreter limits on the
  number of digits in int/str conversion are out of scope.
-/

/-! ### Decoded JSON values (the result of json.loads) -/

mutual

inductive JValue where
  | jnull : JValue
  | jbool : Bool → JValue
  | jint : Int → JValue
  | jfloat : ℚ → String → JValue
  | jstr : String → JValue
  | jarr : JList → JValue
  | jobj : JFields → JValue

inductive JList where
  | nil : JList
  | cons : JValue → JList → JList

inductive JFields where
  | nil : JFields
  | cons : String → JValue → JFields → JFields

end

/-- Lookup in a decoded object, mirroring evt.get(key): json.loads keeps
the last of duplicate keys, so later entries override earlier ones; a
missing key yields none (Python None). -/
def jGet : JFields → String → Option JValue
  | .nil, _ => none
  | .cons k v t, key =>
    match jGet t key with
    | some w => some w
    | none => if k = key then some v else none

/-- The apostrophe character, written by Python repr around strings. -/
def quoteChar : Char := Char.ofNat 39

mutual

/-- Python repr() of a decoded JSON value (None / True / False / numbers /
quoted strings / lists / dicts).  The repr of a str is simplified to the
quote character around the raw characters; no claim renders a string
inside a container, so the quote-choice and escaping rules of CPython
repr are not needed. -/
def pyRepr : JValue → String
  | .jnull => "None"
  | .jbool b => if b then "True" else "False"
  | .jint n => toString n
  | .jfloat _ rep => rep
  | .jstr s => String.singleton quoteChar ++ s ++ String.singleton quoteChar
  | .jarr a => "[" ++ pyReprList a ++ "]"
  | .jobj o => "\x7b" ++ pyReprFields o ++ "\x7d"

def pyReprList : JList → String
  | .nil => ""
  | .cons v .nil => pyRepr v
  | .cons v t => pyRepr v ++ ", " ++ pyReprList t

def pyReprFields : JFields → String
  | .nil => ""
  | .cons k v .nil =>
    String.singleton quoteChar ++ k ++ String.singleton quoteChar ++ ": " ++ pyRepr v
  | .cons k v t =>
    String.singleton quoteChar ++ k ++ String.singleton quoteChar ++ ": " ++ pyRepr v
      ++ ", " ++ pyReprFields t

end

/-- Python str() of an optional field value, as interpolated by the
f-strings of process_message: a missing key is Python None and prints as
the text None; str of a str is the string itself (no quotes); containers
fall back to repr. -/
def pyStrTop : Option JValue → String
  | none => "None"
  | some .jnull => "None"
  | some (.jbool b) => if b then "True" else "False"
  | some (.jint n) => toString n
  | some (.jfloat _ rep) => rep
  | some (.jstr s) => s
  | some (.jarr a) => pyRepr (.jarr a)
  | some (.jobj o) => pyRepr (.jobj o)

/-! ### String helpers mirroring the Python string operations used -/

/-- The characters str.strip() removes (ASCII whitespace; exotic Unicode
whitespace is not exercised by any input considered here). -/
def pyIsSpace (c : Char) : Bool :=
  c = ' ' || c = '\t' || c = '\n' || c = '\r' || c = '\x0b' || c = '\x0c'

/-- Python s.strip(): drop leading and trailing whitespace. -/
def pyStrip (s : String) : String :=
  String.mk (((s.data.dropWhile pyIsSpace).reverse.dropWhile pyIsSpace).reverse)

/-- Python s.startswith(pre). -/
def pyStartsWith (s pre : String) : Bool :=
  pre.data.isPrefixOf s.data

/-- Python s.endswith(suf). -/
def pyEndsWith (s suf : String) : Bool :=
  s.data.reverse.take suf.data.length = suf.data.reverse

/-- Does needle occur as a contiguous run inside hay? -/
def listContains (needle : List Char) : List Char → Bool
  | [] => needle.isEmpty
  | c :: t => needle.isPrefixOf (c :: t) || listContains needle t

/-- Python needle in hay for strings. -/
def strContains (hay needle : String) : Bool :=
  listContains needle.data hay.data

/-! ### _try_parse_json (source lines 54-62) -/

/-- The bracket heuristic of _try_parse_json: after stripping, the text
must start with a left brace and end with a right brace. -/
def bracketHeuristic (s : String) : Bool :=
  pyStartsWith (pyStrip s) "\x7b" && pyEndsWith (pyStrip s) "\x7d"

/-- Model of _try_parse_json: strip the text, return None unless it is
brace-delimited, otherwise hand the stripped text to json.loads (the
loads oracle), whose none outcome is json.JSONDecodeError turned into
None by the except clause. -/
def tryParseJson (loads : String → Option JFields) (s : String) : Option JFields :=
  let t := pyStrip s
  if pyStartsWith t "\x7b" && pyEndsWith t "\x7d" then loads t else none

/-! ### The three threshold rules (source lines 83-93) -/

/-- Rule condition isinstance(hr, int) and hr > 120.  Python bool is a
subclass of int, so a boolean passes the isinstance test and compares as
its value 0 or 1. -/
def hrTrigger : Option JValue → Bool
  | some (.jint n) => decide (120 < n)
  | some (.jbool b) => decide ((120 : Int) < if b then 1 else 0)
  | _ => false

/-- Rule condition isinstance(steps, int) and steps > 12, with the same
bool-is-int subtlety as hrTrigger. -/
def stepsTrigger : Option JValue → Bool
  | some (.jint n) => decide (12 < n)
  | some (.jbool b) => decide ((12 : Int) < if b then 1 else 0)
  | _ => false

/-- Smallest magnitude at which CPython float(n) of an int n raises
OverflowError: |n| >= 2^1024 - 2^970 rounds (half-to-even) to 2^1024,
beyond the largest finite double.  Written as a literal so that kernel
reduction never has to evaluate the powers; ovfBound_eq checks it. -/
def ovfBound : ℕ := 179769313486231580793728971405303415079934132710037826936173778980444968292764750946649017977587207096330286416692887910946555547851940402630657488671505820681908902000708383676273854845817711531764475730270069855571366959622842914819860834936475292719074168444365510704342711559699508093042880177904174497792

theorem ovfBound_eq : ovfBound = 2 ^ 1024 - 2 ^ 970 := by norm_num [ovfBound]

/-- The value of the float literal 0.40 of source line 87 as a rational.
The IEEE double nearest 0.40 lies strictly between 2/5 and the next
double up, so comparing the exact value of a double, or of an in-range
int, against 2/5 agrees with the double comparison float(gait) < 0.40 in
every case.  gaitThreshold_eq ties the constant to the literal. -/
def gaitThreshold : ℚ := ⟨2, 5, by decide, by decide⟩

theorem gaitThreshold_eq : gaitThreshold = 0.40 := by
  rw [show (0.40 : ℚ) = 2 / 5 by norm_num]
  rw [gaitThreshold, Rat.mk'_eq_divInt, Rat.divInt_eq_div]
  norm_num

/-- Rule condition isinstance(gait, (int, float)) and float(gait) < 0.40.
Returns none when float(gait) raises OverflowError (an int beyond double
range), some true when the rule fires, some false otherwise (including
every non-numeric type, for which isinstance already fails). -/
def gaitCheck : Option JValue → Option Bool
  | some (.jint n) =>
    if ovfBound ≤ n.natAbs then none
    else some (decide ((n : ℚ) < gaitThreshold))
  | some (.jbool b) => some (decide ((if b then (1 : ℚ) else 0) < gaitThreshold))
  | some (.jfloat q _) => some (decide (q < gaitThreshold))
  | _ => some false

/-! ### Alert text (source lines 84, 88, 92, 97-99) -/

/-- Text of the tachycardia alert f-string of line 84. -/
def tachyAlert (pid hr ts : Option JValue) : String :=
  "ALERT Tachycardia: patient=" ++
    (pyStrTop pid ++ (" hr=" ++ (pyStrTop hr ++ (" ts=" ++ pyStrTop ts))))

/-- Text of the low gait_score alert f-string of line 88. -/
def gaitAlert (pid gait ts : Option JValue) : String :=
  "ALERT Low gait_score: patient=" ++
    (pyStrTop pid ++ (" gait_score=" ++ (pyStrTop gait ++ (" ts=" ++ pyStrTop ts))))

/-- Text of the step surge alert f-string of line 92. -/
def stepsAlert (pid steps ts : Option JValue) : String :=
  "ALERT Step surge: patient=" ++
    (pyStrTop pid ++ (" steps=" ++ (pyStrTop steps ++ (" ts=" ++ pyStrTop ts))))

/-- The fixed substring looked for on the plain-text path (line 97). -/
def specialMsg : String := "I just loved a movie! It was funny."

/-- Text of the special-message alert of line 99, reproducing the full
original message after the newline. -/
def specialAlert (message : String) : String :=
  "ALERT: The special message was found!\n" ++ message

/-! ### process_message (source lines 65-100) -/

/-- Model of process_message.  The result pairs the alert strings
printed, in order, with a flag that is true exactly when the evaluation
raised OverflowError (float() of an out-of-range int gait_score); in
that case the alerts already printed before the raise are listed and the
steps rule was never reached. -/
def processMessage (loads : String → Option JFields) (message : String) :
    List String × Bool :=
  match tryParseJson loads message with
  | some evt =>
    let hr := jGet evt "hr"
    let gait := jGet evt "gait_score"
    let steps := jGet evt "steps"
    let pid := jGet evt "patient_id"
    let ts := jGet evt "ts"
    let hrA := if hrTrigger hr then [tachyAlert pid hr ts] else []
    match gaitCheck gait with
    | none => (hrA, true)
    | some g =>
      let gaitA := if g then [gaitAlert pid gait ts] else []
      let stepsA := if stepsTrigger steps then [stepsAlert pid steps ts] else []
      (hrA ++ (gaitA ++ stepsA), false)
  | none =>
    (if strContains message specialMsg then [specialAlert message] else [], false)

/-! ### Named pieces of the two paths, for stating properties -/

/-- The alerts the hr rule contributes to a decoded event. -/
def hrAlerts (evt : JFields) : List String :=
  if hrTrigger (jGet evt "hr") then
    [tachyAlert (jGet evt "patient_id") (jGet evt "hr") (jGet evt "ts")]
  else []

/-- The alerts the gait_score rule contributes to a decoded event (empty
when the rule does not fire or when its conversion raises). -/
def gaitAlerts (evt : JFields) : List String :=
  match gaitCheck (jGet evt "gait_score") with
  | some true =>
    [gaitAlert (jGet evt "patient_id") (jGet evt "gait_score") (jGet evt "ts")]
  | _ => []

/-- The alerts the steps rule contributes to a decoded event. -/
def stepsAlerts (evt : JFields) : List String :=
  if stepsTrigger (jGet evt "steps") then
    [stepsAlert (jGet evt "patient_id") (jGet evt "steps") (jGet evt "ts")]
  else []

/-- The structured path on a decoded event: the three rule contributions
in source order, or a truncated run with the raised flag when the
gait_score conversion overflows. -/
def structuredEval (evt : JFields) : List String × Bool :=
  match gaitCheck (jGet evt "gait_score") with
  | none => (hrAlerts evt, true)
  | some _ => (hrAlerts evt ++ (gaitAlerts evt ++ stepsAlerts evt), false)

/-- The plain-text path: the special-substring rule applied to the
original message. -/
def plainAlerts (message : String) : List String :=
  if strContains message specialMsg then [specialAlert message] else []

/-- A whole consumer run: the loop of source lines 126-129 calls
process_message once per polled message. -/
def evalRun (loads : String → Option JFields) (msgs : List String) :
    List (List String × Bool) :=
  msgs.map (processMessage loads)

/-! ### Generic helper lemmas -/

theorem dataAppend (s t : String) : (s ++ t).data = s.data ++ t.data := by
  cases s; cases t; rfl

/-- Two strings with different characters at a common index stay different
under arbitrary suffixes. -/
theorem strNeAt (a b x y : String) (i : Nat) (ha : i < a.data.length)
    (hb : i < b.data.length) (hne : a.data[i]? ≠ b.data[i]?) :
    a ++ x ≠ b ++ y := by
  intro h
  apply hne
  have hd : a.data ++ x.data = b.data ++ y.data := by
    have h2 := congrArg String.data h
    rwa [dataAppend, dataAppend] at h2
  have h3 : (a.data ++ x.data)[i]? = (b.data ++ y.data)[i]? :=
    congrArg (fun l => l[i]?) hd
  rwa [List.getElem?_append_left ha, List.getElem?_append_left hb] at h3

theorem tachyAlert_ne_gaitAlert (p h t p₁ g t₁ : Option JValue) :
    tachyAlert p h t ≠ gaitAlert p₁ g t₁ := by
  unfold tachyAlert gaitAlert
  exact strNeAt _ _ _ _ 6 (by decide) (by decide) (by decide)

theorem tachyAlert_ne_stepsAlert (p h t p₁ s t₁ : Option JValue) :
    tachyAlert p h t ≠ stepsAlert p₁ s t₁ := by
  unfold tachyAlert stepsAlert
  exact strNeAt _ _ _ _ 6 (by decide) (by decide) (by decide)

theorem specialAlert_ne_tachyAlert (m : String) (p h t : Option JValue) :
    specialAlert m ≠ tachyAlert p h t := by
  unfold specialAlert tachyAlert
  exact strNeAt _ _ _ _ 5 (by decide) (by decide) (by decide)

theorem specialAlert_ne_gaitAlert (m : String) (p g t : Option JValue) :
    specialAlert m ≠ gaitAlert p g t := by
  unfold specialAlert gaitAlert
  exact strNeAt _ _ _ _ 5 (by decide) (by decide) (by decide)

theorem specialAlert_ne_stepsAlert (m : String) (p s t : Option JValue) :
    specialAlert m ≠ stepsAlert p s t := by
  unfold specialAlert stepsAlert
  exact strNeAt _ _ _ _ 5 (by decide) (by decide) (by decide)

/-- process_message is exactly the two-path dispatch: the structured
evaluation of the decoded event when _try_parse_json succeeds, the
plain-text rule otherwise. -/
theorem processMessage_eq (loads : String → Option JFields) (s : String) :
    processMessage loads s =
      match tryParseJson loads s with
      | some evt => structuredEval evt
      | none => (plainAlerts s, false) := by
  cases h : tryParseJson loads s with
  | none => simp [processMessage, plainAlerts, h]
  | some evt =>
    cases hg : gaitCheck (jGet evt "gait_score") with
    | none => simp [processMessage, structuredEval, hrAlerts, h, hg]
    | some g =>
      cases g <;>
        simp [processMessage, structuredEval, hrAlerts, gaitAlerts, stepsAlerts, h, hg]

/-- The gait conversion raises exactly on an int whose magnitude reaches
the float overflow bound. -/
theorem gaitCheck_eq_none_iff (x : Option JValue) :
    gaitCheck x = none ↔ ∃ n, x = some (.jint n) ∧ ovfBound ≤ n.natAbs := by
  cases x with
  | none => simp [gaitCheck]
  | some v =>
    cases v with
    | jint n =>
      by_cases hb : ovfBound ≤ n.natAbs <;> simp [gaitCheck, hb]
    | jnull => simp [gaitCheck]
    | jbool b => simp [gaitCheck]
    | jfloat q r => simp [gaitCheck]
    | jstr s => simp [gaitCheck]
    | jarr a => simp [gaitCheck]
    | jobj o => simp [gaitCheck]

theorem count_tachy_gaitAlerts (evt : JFields) (p h t : Option JValue) :
    (gaitAlerts evt).count (tachyAlert p h t) = 0 := by
  unfold gaitAlerts
  cases gaitCheck (jGet evt "gait_score") with
  | none => simp
  | some g =>
    cases g with
    | false => simp
    | true =>
      refine List.count_eq_zero.mpr ?_
      simp only [List.mem_singleton]
      exact tachyAlert_ne_gaitAlert _ _ _ _ _ _

theorem count_tachy_stepsAlerts (evt : JFields) (p h t : Option JValue) :
    (stepsAlerts evt).count (tachyAlert p h t) = 0 := by
  unfold stepsAlerts
  by_cases hs : stepsTrigger (jGet evt "steps")
  · simp only [hs, if_true]
    refine List.count_eq_zero.mpr ?_
    simp only [List.mem_singleton]
    exact tachyAlert_ne_stepsAlert _ _ _ _ _ _
  · simp [hs]

theorem special_not_mem_structured (s : String) (evt : JFields) :
    specialAlert s ∉ (structuredEval evt).1 := by
  have hhr : specialAlert s ∉ hrAlerts evt := by
    unfold hrAlerts
    by_cases h : hrTrigger (jGet evt "hr") <;> simp [h]
    exact specialAlert_ne_tachyAlert _ _ _ _
  have hga : specialAlert s ∉ gaitAlerts evt := by
    unfold gaitAlerts
    cases gaitCheck (jGet evt "gait_score") with
    | none => simp
    | some g =>
      cases g with
      | false => simp
      | true =>
        simp only [List.mem_singleton]
        exact specialAlert_ne_gaitAlert _ _ _ _
  have hst : specialAlert s ∉ stepsAlerts evt := by
    unfold stepsAlerts
    by_cases h : stepsTrigger (jGet evt "steps") <;> simp [h]
    exact specialAlert_ne_stepsAlert _ _ _ _
  unfold structuredEval
  cases gaitCheck (jGet evt "gait_score") with
  | none => exact hhr
  | some g =>
    simp only [List.mem_append]
    rintro (h | h | h)
    · exact hhr h
    · exact hga h
    · exact hst h

/-! ### Concrete inputs and a concrete json.loads oracle

Each entry of loadsEx maps a brace-delimited text to exactly the object
CPython json.loads returns for it (floats carried as the exact rational
value of the decoded double, together with its str() rendering). -/

/-- Digits of 10^309, an integer safely above the float overflow bound;
bigPos_eq checks the literal. -/
def bigPos : Int := 1000000000000000000000000000000000000000000000000000000000000000000000000000000000000000000000000000000000000000000000000000000000000000000000000000000000000000000000000000000000000000000000000000000000000000000000000000000000000000000000000000000000000000000000000000000000000000000000000000000000000000000000

theorem bigPos_eq : bigPos = 10 ^ 309 := by norm_num [bigPos]

/-- Decimal text of bigPos, as it appears inside the oversized JSON
inputs. -/
def bigDigits : String := "1000000000000000000000000000000000000000000000000000000000000000000000000000000000000000000000000000000000000000000000000000000000000000000000000000000000000000000000000000000000000000000000000000000000000000000000000000000000000000000000000000000000000000000000000000000000000000000000000000000000000000000000"

/-- The double nearest 0.2, namely 3602879701896397 * 2^-54; str() prints
it as 0.2. -/
def dblTwoTenths : ℚ := ⟨3602879701896397, 18014398509481984, by decide, by decide⟩

/-- The double nearest 0.4, namely 3602879701896397 * 2^-53, slightly
above 2/5; str() prints it as 0.4. -/
def dblFourTenths : ℚ := ⟨3602879701896397, 9007199254740992, by decide, by decide⟩

/-- The double 150.5 = 301/2, exactly representable. -/
def dblHr : ℚ := ⟨301, 2, by decide, by decide⟩

def inC2 : String := "\x7b\"hr\": 150, \"patient_id\": \"p1\", \"ts\": \"t1\"\x7d"

def evtC2 : JFields :=
  .cons "hr" (.jint 150) (.cons "patient_id" (.jstr "p1") (.cons "ts" (.jstr "t1") .nil))

def inC3 : String := "\x7b\"gait_score\": 0.2, \"patient_id\": \"p2\", \"ts\": \"t2\"\x7d"

def evtC3 : JFields :=
  .cons "gait_score" (.jfloat dblTwoTenths "0.2")
    (.cons "patient_id" (.jstr "p2") (.cons "ts" (.jstr "t2") .nil))

def inC4 : String := "\x7b\"steps\": 20, \"hr\": 130, \"patient_id\": \"p3\", \"ts\": \"t3\"\x7d"

def evtC4 : JFields :=
  .cons "steps" (.jint 20)
    (.cons "hr" (.jint 130)
      (.cons "patient_id" (.jstr "p3") (.cons "ts" (.jstr "t3") .nil)))

def inC9 : String := "\x7b\"gait_score\": false\x7d"

def evtC9 : JFields := .cons "gait_score" (.jbool false) .nil

def inC10 : String := "\x7b\"hr\": 150\x7d"

def evtC10 : JFields := .cons "hr" (.jint 150) .nil

def inG04 : String := "\x7b\"gait_score\": 0.4\x7d"

def evtG04 : JFields := .cons "gait_score" (.jfloat dblFourTenths "0.4") .nil

/-- A brace-delimited text that json.loads rejects (trailing comma), so
_try_parse_json returns None for it. -/
def inMalformed : String := "\x7b\"hr\": 150,\x7d"

def inOvfPos : String := "\x7b\"gait_score\": " ++ bigDigits ++ "\x7d"

def evtOvfPos : JFields := .cons "gait_score" (.jint bigPos) .nil

def inOvfC3 : String :=
  "\x7b\"gait_score\": -" ++ bigDigits ++ ", \"patient_id\": \"p9\", \"ts\": \"t9\"\x7d"

def evtOvfC3 : JFields :=
  .cons "gait_score" (.jint (-bigPos))
    (.cons "patient_id" (.jstr "p9") (.cons "ts" (.jstr "t9") .nil))

def inOvfC4 : String :=
  "\x7b\"steps\": 20, \"hr\": 130, \"gait_score\": -" ++ bigDigits ++ "\x7d"

def evtOvfC4 : JFields :=
  .cons "steps" (.jint 20) (.cons "hr" (.jint 130) (.cons "gait_score" (.jint (-bigPos)) .nil))

def inOvfC10 : String := "\x7b\"steps\": 20, \"gait_score\": -" ++ bigDigits ++ "\x7d"

def evtOvfC10 : JFields :=
  .cons "steps" (.jint 20) (.cons "gait_score" (.jint (-bigPos)) .nil)

/-- A concrete json.loads oracle covering the inputs exercised below;
every other text decodes to nothing, in particular inMalformed and every
plain-text message. -/
def loadsEx : String → Option JFields := fun s =>
  if s = inC2 then some evtC2
  else if s = inC3 then some evtC3
  else if s = inC4 then some evtC4
  else if s = inC9 then some evtC9
  else if s = inC10 then some evtC10
  else if s = inG04 then some evtG04
  else if s = inOvfPos then some evtOvfPos
  else if s = inOvfC3 then some evtOvfC3
  else if s = inOvfC4 then some evtOvfC4
  else if s = inOvfC10 then some evtOvfC10
  else none

/-- Event used to witness the type-strictness statements: a float hr, a
boolean steps, a boolean false gait_score, no patient_id, no ts. -/
def evtW1 : JFields :=
  .cons "hr" (.jfloat dblHr "150.5")
    (.cons "steps" (.jbool true) (.cons "gait_score" (.jbool false) .nil))

/-! ### Claim C1 -/

/-- Claim C1 as stated is false on the code: the JSON boolean false for
gait_score does trigger the low-gait-score rule, because Python bool is a
subclass of int, so isinstance(False, (int, float)) holds and
float(False) = 0.0 < 0.40.  Decoding the concrete input with gait_score
false emits the low-gait-score alert. -/
theorem c1_counterexample :
    processMessage loadsEx inC9 =
      (["ALERT Low gait_score: patient=None gait_score=False ts=None"], false) := by
  rfl

/-- Claim C1 (amended): a float hr or steps never triggers its rule; a
boolean hr or steps passes the isinstance test but its value 0 or 1 is
below both thresholds, so it never triggers either; gait_score accepts
int and float, and also booleans, true comparing as 1.0 (no trigger) and
false comparing as 0.0 (trigger); an int gait_score below the overflow
bound triggers exactly when its value is below the threshold. -/
theorem c1_strict_types (q : ℚ) (r : String) (b : Bool) (n : Int) (evt : JFields) :
    (jGet evt "hr" = some (.jfloat q r) → hrAlerts evt = []) ∧
    (jGet evt "hr" = some (.jbool b) → hrAlerts evt = []) ∧
    (jGet evt "steps" = some (.jfloat q r) → stepsAlerts evt = []) ∧
    (jGet evt "steps" = some (.jbool b) → stepsAlerts evt = []) ∧
    (jGet evt "gait_score" = some (.jbool true) → gaitAlerts evt = []) ∧
    (jGet evt "gait_score" = some (.jbool false) →
      gaitAlerts evt =
        [gaitAlert (jGet evt "patient_id") (some (.jbool false)) (jGet evt "ts")]) ∧
    (jGet evt "gait_score" = some (.jfloat q r) →
      (gaitAlerts evt =
          [gaitAlert (jGet evt "patient_id") (some (.jfloat q r)) (jGet evt "ts")] ↔
        q < gaitThreshold)) ∧
    (jGet evt "gait_score" = some (.jint n) → n.natAbs < ovfBound →
      (gaitAlerts evt =
          [gaitAlert (jGet evt "patient_id") (some (.jint n)) (jGet evt "ts")] ↔
        (n : ℚ) < gaitThreshold)) := by
  refine ⟨?_, ?_, ?_, ?_, ?_, ?_, ?_, ?_⟩
  · intro h; simp [hrAlerts, hrTrigger, h]
  · intro h; cases b <;> simp [hrAlerts, hrTrigger, h]
  · intro h; simp [stepsAlerts, stepsTrigger, h]
  · intro h; cases b <;> simp [stepsAlerts, stepsTrigger, h]
  · intro h
    have hd : decide ((1 : ℚ) < gaitThreshold) = false := by decide
    simp [gaitAlerts, gaitCheck, h, hd]
  · intro h
    have hd : decide ((0 : ℚ) < gaitThreshold) = true := by decide
    simp [gaitAlerts, gaitCheck, h, hd]
  · intro h
    by_cases hlt : q < gaitThreshold <;> simp [gaitAlerts, gaitCheck, h, hlt]
  · intro h hb
    have hb2 : ¬ ovfBound ≤ n.natAbs := Nat.not_le.mpr hb
    by_cases hlt : (n : ℚ) < gaitThreshold <;>
      simp [gaitAlerts, gaitCheck, h, hb2, hlt]

/-- Witness for c1_strict_types at the concrete event with a float hr, a
boolean steps and a boolean false gait_score. -/
theorem c1_strict_types_witness :
    hrAlerts evtW1 = [] ∧ stepsAlerts evtW1 = [] ∧
      gaitAlerts evtW1 = [gaitAlert none (some (.jbool false)) none] := by
  have h := c1_strict_types dblHr "150.5" true 0 evtW1
  exact ⟨h.1 rfl, h.2.2.2.1 rfl, h.2.2.2.2.2.1 rfl⟩

/-! ### Claim C2 -/

/-- Claim C2: whenever the message decodes to an object whose hr is a
JSON integer above 120, the emitted alerts contain the tachycardia alert
exactly once, its text is the f-string of source line 84 with the
event's values substituted, and the concrete input of the claim produces
exactly that single alert with the expected text. -/
theorem c2_tachycardia (loads : String → Option JFields) (s : String)
    (evt : JFields) (n : Int)
    (hdec : tryParseJson loads s = some evt)
    (hhr : jGet evt "hr" = some (.jint n)) (hn : (120 : Int) < n) :
    (processMessage loads s).1.count
        (tachyAlert (jGet evt "patient_id") (some (.jint n)) (jGet evt "ts")) = 1 ∧
    tachyAlert (jGet evt "patient_id") (some (.jint n)) (jGet evt "ts") =
      "ALERT Tachycardia: patient=" ++ (pyStrTop (jGet evt "patient_id") ++
        (" hr=" ++ (toString n ++ (" ts=" ++ pyStrTop (jGet evt "ts"))))) ∧
    processMessage loadsEx inC2 =
      (["ALERT Tachycardia: patient=p1 hr=150 ts=t1"], false) := by
  refine ⟨?_, rfl, by rfl⟩
  rw [processMessage_eq, hdec]
  show (structuredEval evt).1.count _ = 1
  have hhrA : hrAlerts evt =
      [tachyAlert (jGet evt "patient_id") (some (.jint n)) (jGet evt "ts")] := by
    simp [hrAlerts, hhr, hrTrigger, hn]
  cases hg : gaitCheck (jGet evt "gait_score") with
  | none => simp [structuredEval, hg, hhrA]
  | some g =>
    have : (structuredEval evt).1 =
        hrAlerts evt ++ (gaitAlerts evt ++ stepsAlerts evt) := by
      simp [structuredEval, hg]
    rw [this, List.count_append, List.count_append, hhrA,
      count_tachy_gaitAlerts, count_tachy_stepsAlerts]
    simp

/-- Witness for c2_tachycardia at the concrete claim input. -/
theorem c2_tachycardia_witness :
    (processMessage loadsEx inC2).1.count
        (tachyAlert (jGet evtC2 "patient_id") (some (.jint 150)) (jGet evtC2 "ts")) = 1 ∧
    tachyAlert (jGet evtC2 "patient_id") (some (.jint 150)) (jGet evtC2 "ts") =
      "ALERT Tachycardia: patient=" ++ (pyStrTop (jGet evtC2 "patient_id") ++
        (" hr=" ++ (toString (150 : Int) ++ (" ts=" ++ pyStrTop (jGet evtC2 "ts"))))) ∧
    processMessage loadsEx inC2 =
      (["ALERT Tachycardia: patient=p1 hr=150 ts=t1"], false) :=
  c2_tachycardia loadsEx inC2 evtC2 150 rfl rfl (by decide)

/-! ### Claim C3 -/

/-- Claim C3 as stated is false on the code: the concrete input whose
gait_score is the integer -10^309 decodes to an object with a numeric
gait_score whose value is strictly less than 0.40, yet no low-gait-score
alert is emitted — float(gait) raises OverflowError (the raised flag is
true) before the comparison can fire. -/
theorem c3_counterexample : processMessage loadsEx inOvfC3 = ([], true) := by
  rfl

/-- Claim C3 (amended): a float gait_score below the threshold always
emits the low-gait-score alert with the f-string text of source line 88;
an int gait_score does so only when its magnitude is below the float
overflow bound; at or above the threshold nothing is emitted by the
rule; the threshold constant is the source literal 0.40; the concrete
claim input emits exactly the expected alert and a gait_score of 0.4
emits nothing. -/
theorem c3_gait_rule (loads : String → Option JFields) (s : String)
    (evt : JFields) (q : ℚ) (r : String) (n : Int)
    (hdec : tryParseJson loads s = some evt) :
    (jGet evt "gait_score" = some (.jfloat q r) → q < gaitThreshold →
      (processMessage loads s).1 =
        hrAlerts evt ++
          (gaitAlert (jGet evt "patient_id") (some (.jfloat q r)) (jGet evt "ts") ::
            stepsAlerts evt)) ∧
    (jGet evt "gait_score" = some (.jfloat q r) → ¬ q < gaitThreshold →
      (processMessage loads s).1 = hrAlerts evt ++ stepsAlerts evt) ∧
    (jGet evt "gait_score" = some (.jint n) → n.natAbs < ovfBound →
      (n : ℚ) < gaitThreshold →
      (processMessage loads s).1 =
        hrAlerts evt ++
          (gaitAlert (jGet evt "patient_id") (some (.jint n)) (jGet evt "ts") ::
            stepsAlerts evt)) ∧
    gaitThreshold = 0.40 ∧
    gaitAlert (jGet evt "patient_id") (some (.jfloat q r)) (jGet evt "ts") =
      "ALERT Low gait_score: patient=" ++ (pyStrTop (jGet evt "patient_id") ++
        (" gait_score=" ++ (r ++ (" ts=" ++ pyStrTop (jGet evt "ts"))))) ∧
    processMessage loadsEx inC3 =
      (["ALERT Low gait_score: patient=p2 gait_score=0.2 ts=t2"], false) ∧
    processMessage loadsEx inG04 = ([], false) := by
  refine ⟨?_, ?_, ?_, gaitThreshold_eq, rfl, by rfl, by rfl⟩
  · intro h hlt
    rw [processMessage_eq, hdec]
    show (structuredEval evt).1 = _
    have hg : gaitCheck (jGet evt "gait_score") = some true := by
      simp [gaitCheck, h, hlt]
    simp only [structuredEval, gaitAlerts, hg]
    simp [h]
  · intro h hlt
    rw [processMessage_eq, hdec]
    show (structuredEval evt).1 = _
    have hg : gaitCheck (jGet evt "gait_score") = some false := by
      simp [gaitCheck, h, hlt]
    simp [structuredEval, gaitAlerts, hg]
  · intro h hb hlt
    rw [processMessage_eq, hdec]
    show (structuredEval evt).1 = _
    have hg : gaitCheck (jGet evt "gait_score") = some true := by
      simp [gaitCheck, h, Nat.not_le.mpr hb, hlt]
    simp only [structuredEval, gaitAlerts, hg]
    simp [h]

/-- Witness for c3_gait_rule at the concrete claim input. -/
theorem c3_gait_rule_witness :
    (processMessage loadsEx inC3).1 =
      hrAlerts evtC3 ++
        (gaitAlert (jGet evtC3 "patient_id") (some (.jfloat dblTwoTenths "0.2"))
            (jGet evtC3 "ts") ::
          stepsAlerts evtC3) :=
  (c3_gait_rule loadsEx inC3 evtC3 dblTwoTenths "0.2" 0 rfl).1 rfl (by decide)

/-! ### Claim C4 -/

/-- Claim C4 as stated is false on the code: on the concrete input with
steps 20, hr 130 and gait_score -10^309, the steps condition holds
(steps is an integer above 12) yet no step-surge alert is emitted — the
gait_score rule raises OverflowError first, so the rules are not fully
independent.  The hr rule, evaluated before, did emit. -/
theorem c4_counterexample :
    processMessage loadsEx inOvfC4 =
      (["ALERT Tachycardia: patient=None hr=130 ts=None"], true) := by
  rfl

/-- Claim C4 (amended): whenever the gait_score conversion does not
overflow, the emitted alerts are exactly the three rule contributions in
source order, each depending only on its own key, and a rule whose key
is absent contributes nothing; the concrete claim input emits both the
tachycardia and the step-surge alert. -/
theorem c4_independent_rules (loads : String → Option JFields) (s : String)
    (evt : JFields)
    (hdec : tryParseJson loads s = some evt)
    (hnovf : gaitCheck (jGet evt "gait_score") ≠ none) :
    processMessage loads s =
      (hrAlerts evt ++ (gaitAlerts evt ++ stepsAlerts evt), false) ∧
    (jGet evt "hr" = none → hrAlerts evt = []) ∧
    (jGet evt "gait_score" = none → gaitAlerts evt = []) ∧
    (jGet evt "steps" = none → stepsAlerts evt = []) ∧
    processMessage loadsEx inC4 =
      (["ALERT Tachycardia: patient=p3 hr=130 ts=t3",
        "ALERT Step surge: patient=p3 steps=20 ts=t3"], false) := by
  refine ⟨?_, ?_, ?_, ?_, by rfl⟩
  · rw [processMessage_eq, hdec]
    show structuredEval evt = _
    cases hg : gaitCheck (jGet evt "gait_score") with
    | none => exact absurd hg hnovf
    | some g => simp [structuredEval, hg]
  · intro h; simp [hrAlerts, hrTrigger, h]
  · intro h; simp [gaitAlerts, gaitCheck, h]
  · intro h; simp [stepsAlerts, stepsTrigger, h]

/-- Witness for c4_independent_rules at the concrete claim input. -/
theorem c4_independent_rules_witness :
    processMessage loadsEx inC4 =
      (hrAlerts evtC4 ++ (gaitAlerts evtC4 ++ stepsAlerts evtC4), false) :=
  (c4_independent_rules loadsEx inC4 evtC4 rfl
    (fun h => Option.noConfusion h)).1

/-! ### Claim C5 -/

/-- Claim C5: structural decoding is attempted exactly when the stripped
text starts with a left brace and ends with a right brace — otherwise
the parse result is None and the evaluator takes the plain-text path
whatever the content — and when decoding is attempted it is exactly a
call of json.loads on the stripped text, whose failure also lands on the
plain-text path. -/
theorem c5_format_detection (loads : String → Option JFields) (s : String) :
    (bracketHeuristic s = false →
      tryParseJson loads s = none ∧
        processMessage loads s = (plainAlerts s, false)) ∧
    (bracketHeuristic s = true → tryParseJson loads s = loads (pyStrip s)) ∧
    (loads (pyStrip s) = none →
      processMessage loads s = (plainAlerts s, false)) := by
  refine ⟨?_, ?_, ?_⟩
  · intro h
    unfold bracketHeuristic at h
    have ht : tryParseJson loads s = none := by
      unfold tryParseJson
      simp [h]
    refine ⟨ht, ?_⟩
    rw [processMessage_eq, ht]
  · intro h
    unfold bracketHeuristic at h
    unfold tryParseJson
    simp [h]
  · intro h
    have ht : tryParseJson loads s = none := by
      unfold tryParseJson
      cases hc : pyStartsWith (pyStrip s) "\x7b" && pyEndsWith (pyStrip s) "\x7d" <;>
        simp [hc, h]
    rw [processMessage_eq, ht]

/-- Witness for c5_format_detection: a plain text fails the heuristic and
lands on the plain-text path; the malformed brace-delimited text is
handed to json.loads, fails, and also lands on the plain-text path. -/
theorem c5_format_detection_witness :
    (tryParseJson loadsEx "plain text" = none ∧
      processMessage loadsEx "plain text" = (plainAlerts "plain text", false)) ∧
    tryParseJson loadsEx inMalformed = loadsEx (pyStrip inMalformed) ∧
    processMessage loadsEx inMalformed = (plainAlerts inMalformed, false) := by
  have h1 := c5_format_detection loadsEx "plain text"
  have h2 := c5_format_detection loadsEx inMalformed
  exact ⟨h1.1 (by rfl), h2.2.1 (by rfl), h2.2.2 (by rfl)⟩

/-! ### Claim C6 -/

/-- Claim C6: the special-substring rule runs only on the plain-text
path — when the parse result is None, an occurrence of the special
substring emits exactly the special-message alert carrying the original
message verbatim, and no occurrence emits nothing; when decoding
succeeds the output is the structured evaluation, which never contains
the special-message alert; the special message itself, and the
non-decodable brace-delimited text without the substring, behave as the
claim requires. -/
theorem c6_special_message (loads : String → Option JFields) (s : String)
    (evt : JFields) :
    (tryParseJson loads s = none → strContains s specialMsg = true →
      processMessage loads s = ([specialAlert s], false)) ∧
    (tryParseJson loads s = none → strContains s specialMsg = false →
      processMessage loads s = ([], false)) ∧
    (tryParseJson loads s = some evt →
      processMessage loads s = structuredEval evt ∧
        specialAlert s ∉ (structuredEval evt).1) ∧
    processMessage loadsEx specialMsg = ([specialAlert specialMsg], false) ∧
    processMessage loadsEx inMalformed = ([], false) := by
  refine ⟨?_, ?_, ?_, by rfl, by rfl⟩
  · intro ht hc
    rw [processMessage_eq, ht]
    simp [plainAlerts, hc]
  · intro ht hc
    rw [processMessage_eq, ht]
    simp [plainAlerts, hc]
  · intro ht
    exact ⟨by rw [processMessage_eq, ht], special_not_mem_structured s evt⟩

/-- Witness for c6_special_message at the two concrete plain-text
inputs. -/
theorem c6_special_message_witness :
    processMessage loadsEx specialMsg = ([specialAlert specialMsg], false) ∧
    processMessage loadsEx inMalformed = ([], false) := by
  have h1 := c6_special_message loadsEx specialMsg JFields.nil
  have h2 := c6_special_message loadsEx inMalformed JFields.nil
  exact ⟨h1.1 rfl rfl, h2.2.1 rfl rfl⟩

/-! ### Claim C7 -/

/-- Claim C7 as stated is false on the code: the evaluator can raise.
The concrete input whose gait_score is the integer 10^309 decodes
successfully, and float(gait) then raises OverflowError, which
process_message does not catch — the raised flag of the model is true
and no alert is emitted. -/
theorem c7_counterexample : processMessage loadsEx inOvfPos = ([], true) := by
  rfl

/-- Claim C7 (amended): the evaluation raises exactly when the decoded
event carries an int gait_score whose magnitude reaches the float
overflow bound; in every other situation the evaluator is total, and
malformed structured input — the bracket heuristic passes but json.loads
fails — silently degrades to the plain-text path. -/
theorem c7_error_handling (loads : String → Option JFields) (s : String) :
    ((processMessage loads s).2 = true ↔
      ∃ evt n, tryParseJson loads s = some evt ∧
        jGet evt "gait_score" = some (.jint n) ∧ ovfBound ≤ n.natAbs) ∧
    (bracketHeuristic s = true → loads (pyStrip s) = none →
      processMessage loads s = (plainAlerts s, false)) ∧
    (tryParseJson loads s = none →
      processMessage loads s = (plainAlerts s, false)) := by
  refine ⟨?_, ?_, ?_⟩
  · rw [processMessage_eq]
    cases ht : tryParseJson loads s with
    | none => simp [ht]
    | some evt =>
      cases hg : gaitCheck (jGet evt "gait_score") with
      | none =>
        have hex := (gaitCheck_eq_none_iff (jGet evt "gait_score")).mp hg
        simp only [structuredEval, hg, ht]
        simpa using hex
      | some g =>
        simp only [structuredEval, hg, ht]
        simp only [Option.some.injEq]
        constructor
        · intro hfalse
          exact absurd hfalse (by simp)
        · rintro ⟨evt2, n, hevt, hx, hb⟩
          subst hevt
          have hnone := (gaitCheck_eq_none_iff (jGet evt "gait_score")).mpr ⟨n, hx, hb⟩
          rw [hnone] at hg
          exact Option.noConfusion hg
  · intro hb hl
    unfold bracketHeuristic at hb
    have ht : tryParseJson loads s = none := by
      unfold tryParseJson
      simp [hb, hl]
    rw [processMessage_eq, ht]
  · intro ht
    rw [processMessage_eq, ht]

/-- Witness for c7_error_handling: the malformed brace-delimited input is
recovered onto the plain-text path. -/
theorem c7_error_handling_witness :
    processMessage loadsEx inMalformed = (plainAlerts inMalformed, false) :=
  (c7_error_handling loadsEx inMalformed).2.1 rfl rfl

/-! ### Claim C8 -/

/-- Claim C8: a consumer run processes each message independently of its
position and of every other message in the run — the output for a
message in any surrounding context is exactly processMessage of that
message — and two consecutive identical inputs reproduce identical alert
sequences, so nothing is deduplicated, suppressed or rate-limited. -/
theorem c8_deterministic (loads : String → Option JFields)
    (pre post : List String) (m : String) :
    evalRun loads (pre ++ m :: post) =
      evalRun loads pre ++ processMessage loads m :: evalRun loads post ∧
    evalRun loads [m, m] = [processMessage loads m, processMessage loads m] := by
  constructor
  · simp [evalRun]
  · simp [evalRun]

/-! ### Claim C9 -/

/-- Claim C9: the JSON boolean false for gait_score passes the numeric
type check (Python bool is a subclass of int), converts to 0.0 < 0.40,
and the decoded input with gait_score false emits the low-gait-score
alert (with the absent patient_id and ts rendered as None and the value
rendered as False). -/
theorem c9_bool_false_gait :
    gaitCheck (some (.jbool false)) = some true ∧
    processMessage loadsEx inC9 =
      (["ALERT Low gait_score: patient=None gait_score=False ts=None"], false) := by
  exact ⟨by decide, by rfl⟩

/-! ### Claim C10 -/

/-- Claim C10 as stated is false on the code: on the concrete input with
steps 20 and gait_score -10^309 (patient_id and ts absent), the steps
rule condition holds, yet no alert at all is emitted — the gait_score
conversion raises OverflowError before the steps rule runs, so the
triggered rule's alert is not "still emitted". -/
theorem c10_counterexample : processMessage loadsEx inOvfC10 = ([], true) := by
  rfl

/-- Claim C10 (amended): when a threshold rule fires and patient_id or ts
is absent, its alert carries the literal text None in the corresponding
slot — provided evaluation reaches the rule, that is no OverflowError
was raised by an earlier gait_score conversion; the concrete input with
only hr emits the tachycardia alert with both slots rendered None. -/
theorem c10_missing_fields (evt : JFields) (n m : Int) (q : ℚ) (r : String)
    (hpid : jGet evt "patient_id" = none) (hts : jGet evt "ts" = none) :
    (jGet evt "hr" = some (.jint n) → (120 : Int) < n →
      hrAlerts evt =
        ["ALERT Tachycardia: patient=" ++
          ("None" ++ (" hr=" ++ (toString n ++ (" ts=" ++ "None"))))]) ∧
    (jGet evt "steps" = some (.jint m) → (12 : Int) < m →
      stepsAlerts evt =
        ["ALERT Step surge: patient=" ++
          ("None" ++ (" steps=" ++ (toString m ++ (" ts=" ++ "None"))))]) ∧
    (jGet evt "gait_score" = some (.jfloat q r) → q < gaitThreshold →
      gaitAlerts evt =
        ["ALERT Low gait_score: patient=" ++
          ("None" ++ (" gait_score=" ++ (r ++ (" ts=" ++ "None"))))]) ∧
    processMessage loadsEx inC10 =
      (["ALERT Tachycardia: patient=None hr=150 ts=None"], false) := by
  refine ⟨?_, ?_, ?_, by rfl⟩
  · intro h hn
    simp [hrAlerts, hrTrigger, h, hn, tachyAlert, pyStrTop, hpid, hts]
  · intro h hm
    simp [stepsAlerts, stepsTrigger, h, hm, stepsAlert, pyStrTop, hpid, hts]
  · intro h hq
    have hg : gaitCheck (jGet evt "gait_score") = some true := by
      simp [gaitCheck, h, hq]
    simp only [gaitAlerts, hg]
    simp [gaitAlert, pyStrTop, h, hpid, hts]

/-- Witness for c10_missing_fields at the concrete claim input. -/
theorem c10_missing_fields_witness :
    hrAlerts evtC10 =
      ["ALERT Tachycardia: patient=" ++
        ("None" ++ (" hr=" ++ (toString (150 : Int) ++ (" ts=" ++ "None"))))] :=
  (c10_missing_fields evtC10 150 13 dblTwoTenths "0.2" rfl rfl).1 rfl (by decide)
